import Mathlib

/-!
Shallow embedding of the twse-codes repository (src/codes.py and
src/twse_codes/codes.py).

The repository downloads TWSE security-listing HTML pages, parses their
tables into category-tagged rows (`_crawl_from_url`), aggregates the three
sources (`download_codes`), and answers category queries through a tiered
cache / SQL / CSV-fallback path (`get`).

Modelling conventions:
  * a pandas DataFrame row is a `List (Option String)`; `none` models a
    Python `None` / NaN cell, `some s` a string cell;
  * fallible Python operations (list indexing, raised exceptions) are
    embedded in `Except PyError`;
  * the HTTP / BeautifulSoup layer is abstracted by `HtmlDoc`: the response
    status code, and (when the `table class="h4"` element is present) the
    list of `tr` rows, each row being the list of its `td` cell texts;
  * the SQL store and the file system seen by `get` are abstracted by
    `GetEnv` (per-category cache files, the store's state, the fallback CSV
    rows).
-/

namespace TwseCodes

/-- Python exceptions that the embedded code can raise. -/
inductive PyError where
  | indexError
  | attributeError (msg : String)
  | typeError (msg : String)
  | lookupError (msg : String)
  | connectionError (msg : String)
  | connectionRefused (msg : String)
  deriving DecidableEq, Repr

deriving instance DecidableEq for Except

/-- One DataFrame cell: `none` is Python `None` / NaN. -/
abbrev Cell := Option String

/-- One DataFrame row. -/
abbrev Row := List Cell

/-- Models.CodesData / Models.DataColumns: the nine schema columns. -/
inductive CodesData where
  | symbol | name | category | isinCode | dateOfListing
  | marketType | industry | cfiCode | notes
  deriving DecidableEq, Repr

/-- The short machine key of each column (first payload of the enum). -/
def CodesData.short_name : CodesData → String
  | .symbol => "sc"
  | .name => "cn"
  | .category => "ca"
  | .isinCode => "ic"
  | .dateOfListing => "dl"
  | .marketType => "ma"
  | .industry => "si"
  | .cfiCode => "cc"
  | .notes => "no"

/-- The long display label of each column (second payload of the enum). -/
def CodesData.long_name : CodesData → String
  | .symbol => "代號"
  | .name => "名稱"
  | .category => "類別"
  | .isinCode => "國際證券辨識號碼(ISIN Code)"
  | .dateOfListing => "上市日"
  | .marketType => "市場別"
  | .industry => "產業別"
  | .cfiCode => "CFICode"
  | .notes => "備註"

/-- Declaration order of Models.CodesData members. -/
def CodesData.members : List CodesData :=
  [.symbol, .name, .category, .isinCode, .dateOfListing,
   .marketType, .industry, .cfiCode, .notes]

/-- Models.CodesData.get_columns_short(). -/
def get_columns_short : List String := CodesData.members.map CodesData.short_name

/-- Models.CodesCategory, the closed category enumeration. -/
inductive Category where
  | stock | warrant | specialStock | innovationBoard | etf | etn | tdr
  | assetBasedSecurities | reit | otcWarrant | index
  deriving DecidableEq, Repr

/-- The published header string carried by each category member. -/
def Category.value : Category → String
  | .stock => "股票"
  | .warrant => "上市認購(售)權證"
  | .specialStock => "特別股"
  | .innovationBoard => "創新板"
  | .etf => "ETF"
  | .etn => "ETN"
  | .tdr => "臺灣存託憑證(TDR)"
  | .assetBasedSecurities => "受益證券-資產基礎證券"
  | .reit => "受益證券-不動產投資信託"
  | .otcWarrant => "上櫃認購(售)權證"
  | .index => "指數"

/-- Models.CodesCategory.lower_name (lowercased member name, cache file stem). -/
def Category.lower_name : Category → String
  | .stock => "stock"
  | .warrant => "warrant"
  | .specialStock => "special_stock"
  | .innovationBoard => "innovation_board"
  | .etf => "etf"
  | .etn => "etn"
  | .tdr => "tdr"
  | .assetBasedSecurities => "asset_based_securities"
  | .reit => "reit"
  | .otcWarrant => "otc_warrant"
  | .index => "index"

/-- Declaration order of Models.CodesCategory members. -/
def Category.members : List Category :=
  [.stock, .warrant, .specialStock, .innovationBoard, .etf, .etn, .tdr,
   .assetBasedSecurities, .reit, .otcWarrant, .index]

/-- The set of recognized category header strings. -/
def categoryValues : List String := Category.members.map Category.value

/-! ### Python primitives -/

/-- Python list indexing `l[i]` (non-negative index): raises IndexError when
out of range. -/
def pyGet (l : List α) (i : Nat) : Except PyError α :=
  if h : i < l.length then .ok (l.get ⟨i, h⟩) else .error .indexError

/-- Python `l.insert(i, x)` (non-negative index): inserts before position
`i`, appending when `i` exceeds the length. -/
def pyInsert (l : List α) (i : Nat) (x : α) : List α :=
  l.take i ++ x :: l.drop i

/-- Cell of a row at a column position (`none` when the row is too short). -/
def cellAt (r : Row) (i : Nat) : Cell := (r.get? i).join

/-- The `str(...)` conversion pandas `astype(str)` applies to a cell:
Python `None` prints as the string "None". -/
def pyStrOfCell : Cell → String
  | none => "None"
  | some s => s

/-- Whitespace for Python `str.strip()` (Python also strips the ideographic
space U+3000, which `Char.isWhitespace` alone does not cover). -/
def pyIsSpace (c : Char) : Bool := c.isWhitespace || c = '　'

/-- Python `str.strip()`: drop leading and trailing whitespace. -/
def pyStrip (s : String) : String :=
  String.mk (((s.toList.dropWhile pyIsSpace).reverse.dropWhile pyIsSpace).reverse)

/-- Python `str.replace(" ", "")`: remove every ASCII space. -/
def removeSpaces (s : String) : String :=
  String.mk (s.toList.filter (fun c => c ≠ ' '))

/-- Split a character list at every occurrence of `sep`, keeping empty
fields; the result is always non-empty. -/
def splitCharList (sep : Char) : List Char → List (List Char)
  | [] => [[]]
  | c :: rest =>
    match splitCharList sep rest with
    | [] => if c = sep then [[], []] else [[c]]
    | h :: t => if c = sep then [] :: h :: t else (c :: h) :: t

/-- Python `s.split("　")`: split on the full-width (ideographic) space,
keeping empty fields; `"".split` gives `[""]`. -/
def splitFW (s : String) : List String :=
  (splitCharList '　' s.toList).map String.mk

/-- Whether a string contains the full-width space separator. -/
def hasFW (s : String) : Bool := s.toList.contains '　'

/-! ### `_crawl_from_url` (identical logic in both repository files) -/

/-- One fetched listing page: HTTP status code, and the rows of the
`table class="h4"` element (`none` when BeautifulSoup finds no such table;
each row is the list of its `td` cell texts). -/
structure HtmlDoc where
  statusCode : Nat
  tableRows : Option (List (List String))

/-- The non-futures data-row body of `_crawl_from_url`:
`dataset = [td texts]`, `symbol_column = dataset[0].split("　")`,
`dataset.insert(1, category)`,
`dataset.insert(0, symbol_column[0].replace(" ", ""))`,
`dataset[1] = symbol_column[1]`. -/
def crawlDataRow (category : Cell) (tds : List String) : Except PyError Row := do
  let dataset : Row := tds.map some
  let t0 ← pyGet tds 0
  let symbolColumn := splitFW t0
  let dataset := pyInsert dataset 1 category
  let s0 ← pyGet symbolColumn 0
  let dataset := pyInsert dataset 0 (some (removeSpaces s0))
  let s1 ← pyGet symbolColumn 1
  let dataset := dataset.set 1 (some s1)
  pure dataset

/-- The futures-branch row body of `_crawl_from_url`:
`dataset.insert(3, "")` twice, `symbol_column = dataset[0].split("　")`,
`dataset.insert(1, "指數")`, `dataset.insert(0, symbol_column[0])`,
`dataset[1] = symbol_column[1]`.  The futures branch never introduces
Python `None`, so cells stay strings until the final embedding into `Row`. -/
def crawlFutureRow (tds : List String) : Except PyError Row := do
  let dataset := pyInsert tds 3 ""
  let dataset := pyInsert dataset 3 ""
  let t0 ← pyGet dataset 0
  let symbolColumn := splitFW t0
  let dataset := pyInsert dataset 1 "指數"
  let s0 ← pyGet symbolColumn 0
  let dataset := pyInsert dataset 0 s0
  let s1 ← pyGet symbolColumn 1
  let dataset := dataset.set 1 s1
  pure (dataset.map some)

/-- The non-futures row loop of `_crawl_from_url`: a row with at most one
cell updates the current category to its first cell's stripped text; any
other row is a data row. -/
def crawlRowsNF (category : Cell) : List (List String) → Except PyError (List Row)
  | [] => pure []
  | tds :: rest =>
    if tds.length ≤ 1 then do
      let t0 ← pyGet tds 0
      crawlRowsNF (some (pyStrip t0)) rest
    else do
      let row ← crawlDataRow category tds
      let rows ← crawlRowsNF category rest
      pure (row :: rows)

/-- The futures row loop of `_crawl_from_url`: every row is a data row. -/
def crawlRowsF : List (List String) → Except PyError (List Row)
  | [] => pure []
  | tds :: rest => do
    let row ← crawlFutureRow tds
    let rows ← crawlRowsF rest
    pure (row :: rows)

/-- `_crawl_from_url(url)`: non-200 status raises ConnectionError; a missing
`table class="h4"` makes `table.find_all` an AttributeError on None; the
first `tr` row is skipped (`[1:]`); the branch is chosen by whether the url
is the futures endpoint. -/
def crawl_from_url (isFutureUrl : Bool) (doc : HtmlDoc) : Except PyError (List Row) :=
  if doc.statusCode ≠ 200 then .error (.connectionError "Download request failed.")
  else
    match doc.tableRows with
    | none => .error (.attributeError "NoneType object has no attribute find_all")
    | some trs =>
      if isFutureUrl then crawlRowsF (trs.drop 1)
      else crawlRowsNF none (trs.drop 1)

/-! ### `download_codes` (src/twse_codes/codes.py) -/

/-- The index key `set_index` takes from a row: the symbol column content,
stringified the way pandas renders the cell. -/
def symKey (r : Row) : String := pyStrOfCell (cellAt r 0)

/-- Strict code-point lexicographic comparison of character lists (the
order Python and pandas use on strings). -/
def charListLt : List Char → List Char → Bool
  | [], [] => false
  | [], _ :: _ => true
  | _ :: _, [] => false
  | a :: as, b :: bs => if a < b then true else if b < a then false else charListLt as bs

/-- Non-strict code-point lexicographic comparison of strings. -/
def pyStrLe (a b : String) : Bool := !(charListLt b.toList a.toList)

/-- Stable insertion of a row into a list sorted ascending by symbol key. -/
def insertBySc (r : Row) : List Row → List Row
  | [] => [r]
  | x :: xs => if pyStrLe (symKey x) (symKey r) then x :: insertBySc r xs else r :: x :: xs

/-- pandas `df.sort_values("sc")`: a sorted copy of the rows, ascending by
the symbol column. -/
def sort_values : List Row → List Row
  | [] => []
  | r :: rs => insertBySc r (sort_values rs)

/-- Cast the cells at positions `i, i+1, ...` of a row, turning a cell into
the `str(...)` of its content while the position is below 6. -/
def astypeFrom (i : Nat) : Row → Row
  | [] => []
  | c :: t => (if i < 6 then some (pyStrOfCell c) else c) :: astypeFrom (i + 1) t

/-- pandas `df.astype({... six string casts ...})`: the first six schema
columns (sc, cn, ca, ic, dl, ma) are cast to `str`. -/
def astypeRow (r : Row) : Row := astypeFrom 0 r

/-- pandas `df.set_index("sc", drop=True)` applied to one row: the symbol
cell becomes the index key and is dropped from the remaining columns. -/
def setIndexRow (r : Row) : String × Row := (symKey r, r.drop 1)

/-- `download_codes` of src/twse_codes/codes.py.  The three documents stand
for the responses of the TWS, OTC and FUTURE urls; `toSqlResult` is the
row count reported by `df.to_sql` (`none` models a pandas version returning
Python None).  Source peculiarities kept by the embedding:
  * `df.sort_values(symbol_col)` is called without assigning its result, so
    the concatenated frame is left unsorted (`_sorted` below is discarded);
  * `df.set_index` keeps duplicate symbols: no deduplication happens;
  * `if not result:` raises ConnectionRefusedError on a zero or None row
    count, so no data is returned in that case. -/
def download_codes (twsDoc otcDoc futureDoc : HtmlDoc) (toSqlResult : Option Nat) :
    Except PyError (List (String × Row)) := do
  let r1 ← crawl_from_url false twsDoc
  let r2 ← crawl_from_url false otcDoc
  let r3 ← crawl_from_url true futureDoc
  let df := r1 ++ r2 ++ r3
  let _sorted := sort_values df
  let df := df.map astypeRow
  let df := df.map setIndexRow
  if toSqlResult = none ∨ toSqlResult = some 0 then
    .error (.connectionRefused "Could not insert data into database")
  else pure df

/-- The indexed record set is in ascending lexicographic order of symbol. -/
def sortedBySymbol (out : List (String × Row)) : Prop :=
  List.Pairwise (fun a b => pyStrLe a.1 b.1 = true) out

/-! ### `get` (src/codes.py) -/

/-- State of the persisted SQL store as seen by one `get` call:
`engine.connect()` (or the query) raises a connection error, or
`verify_database` reports the schema/table missing, or the table answers a
category-filtered query with rows. -/
inductive StoreState where
  | unreachable
  | noTable
  | table (rowsOf : Category → List Row)

/-- Environment of one `get` call: the per-category disk cache files
(`cache/<lower_name>.csv`; `none` when the file does not exist), the SQL
store, the fallback CSV file's rows, and — for stating the spec's claimed
re-fetch tier — what `download_codes` would return if it were invoked.
`get` in src/codes.py never calls `download_codes`, so `downloadRows` is
never read by the embedding. -/
structure GetEnv where
  cacheFile : Category → Option (List Row)
  store : StoreState
  csvRows : List Row
  downloadRows : List Row

/-- Return value of `get`: a DataFrame, or (details=False) the symbol
column as a Series. -/
inductive QueryOut where
  | frame (rows : List Row)
  | series (cells : List Cell)
  deriving DecidableEq, Repr

/-- Observable outcome of one `get` call: its result, whether the
persisted store was contacted, and the rows written through to the
per-category cache file (`none` when nothing was written). -/
structure GetResult where
  result : Except PyError QueryOut
  storeContacted : Bool
  cacheWritten : Option (List Row)
  deriving DecidableEq, Repr

/-- The CSV-fallback filter of `get`:
`codes.where(codes["ca"] == category.value).dropna(subset="sc")` — `where`
blanks every non-matching row to NaN, and `dropna` then drops rows whose
symbol is NaN, keeping exactly the rows whose category cell equals the
requested value and whose symbol cell is present. -/
def csvFilterRows (catValue : String) (rows : List Row) : List Row :=
  rows.filter (fun r => cellAt r 2 == some catValue && (cellAt r 0).isSome)

/-- Tail of `get` after the cache and SQL tiers: `codes` is the value bound
so far (`none` if no tier assigned it).  The CSV fallback runs when codes
is None or empty; an empty final result raises
`LookupError("No codes found in CSV file.")`; otherwise the result is
written through to the per-category cache file and, for details=False,
projected to the symbol column. -/
def getAfterSql (env : GetEnv) (category : Category) (details : Bool)
    (codes : Option (List Row)) (contacted : Bool) : GetResult :=
  let codes1 : List Row :=
    match codes with
    | none => csvFilterRows category.value env.csvRows
    | some rows => if rows.isEmpty then csvFilterRows category.value env.csvRows else rows
  if codes1.isEmpty then
    { result := .error (.lookupError "No codes found in CSV file.")
      storeContacted := contacted
      cacheWritten := none }
  else
    { result := if details then .ok (.frame codes1)
                else .ok (.series (codes1.map (fun r => cellAt r 0)))
      storeContacted := contacted
      cacheWritten := some codes1 }

/-- `get` of src/codes.py.  Tier walk as written in the source:
  * cache=True and the per-category cache file exists: `codes` is read from
    it (bound even when the file holds zero data rows);
  * from_csv=False and `codes is None`: the SQL store is contacted.  When
    the connection raises, the handler `except sqlalchemy.ExceptionContext`
    cannot catch it — `ExceptionContext` is not a `BaseException` subclass,
    so CPython raises `TypeError` at the matching step and the call aborts;
  * then the CSV fallback and the final LookupError check (`getAfterSql`).
-/
def get (env : GetEnv) (category : Category) (cache from_csv details : Bool) :
    GetResult :=
  let codes0 : Option (List Row) := if cache then env.cacheFile category else none
  if from_csv = false ∧ codes0 = none then
    match env.store with
    | .unreachable =>
      { result := .error (.typeError
          "catching classes that do not inherit from BaseException is not allowed")
        storeContacted := true
        cacheWritten := none }
    | .noTable => getAfterSql env category details none true
    | .table rowsOf => getAfterSql env category details (some (rowsOf category)) true
  else
    getAfterSql env category details codes0 false

/-! ### Concrete documents and environments used by witnesses and
counterexamples.  Non-futures data rows carry seven source cells and
futures data rows five, matching the real listing pages (both yield
nine-column records). -/

/-- TWS document whose single data row carries symbol AAAA. -/
def C1twsDoc : HtmlDoc :=
  ⟨200, some [["h"], ["股票"], ["AAAA　甲",  "i1", "d1", "m1", "in1", "c1", "no1"]]⟩

/-- OTC document with a header row and no data rows. -/
def C1otcDoc : HtmlDoc := ⟨200, some [["h"], ["上櫃認購(售)權證"]]⟩

/-- Futures document whose single data row carries the same symbol AAAA. -/
def C1futDoc : HtmlDoc := ⟨200, some [["h"], ["AAAA　乙", "i2", "d2", "c2", "no2"]]⟩

/-- The record set download_codes returns for the C1 documents. -/
def C1out : List (String × Row) :=
  [("AAAA", [some "甲", some "股票", some "i1", some "d1", some "m1",
             some "in1", some "c1", some "no1"]),
   ("AAAA", [some "乙", some "指數", some "i2", some "d2", some "",
             some "", some "c2", some "no2"])]

/-- TWS document whose single data row carries symbol BBBB. -/
def C4twsDoc : HtmlDoc :=
  ⟨200, some [["h"], ["股票"], ["BBBB　乙股", "i1", "d1", "m1", "in1", "c1", "no1"]]⟩

/-- OTC document with a header row and no data rows. -/
def C4otcDoc : HtmlDoc := ⟨200, some [["h"], ["ETF"]]⟩

/-- Futures document whose single data row carries symbol AAAA. -/
def C4futDoc : HtmlDoc := ⟨200, some [["h"], ["AAAA　甲指", "i2", "d2", "c2", "no2"]]⟩

/-- The record set download_codes returns for the C4 documents: BBBB first,
AAAA second — concatenation order, not symbol order. -/
def C4out : List (String × Row) :=
  [("BBBB", [some "乙股", some "股票", some "i1", some "d1", some "m1",
             some "in1", some "c1", some "no1"]),
   ("AAAA", [some "甲指", some "指數", some "i2", some "d2", some "",
             some "", some "c2", some "no2"])]

/-- TWS document whose single data row carries symbol 2330. -/
def C9twsDoc : HtmlDoc :=
  ⟨200, some [["h"], ["股票"], ["2330　台積電", "i1", "d1", "m1", "in1", "c1", "no1"]]⟩

/-- OTC document with a header row and no data rows. -/
def C9otcDoc : HtmlDoc := ⟨200, some [["h"], ["ETF"]]⟩

/-- Futures document with a header row and no data rows. -/
def C9futDoc : HtmlDoc := ⟨200, some [["h"]]⟩

/-- Non-futures document whose first row after the skipped heading is a
data row: no category header has been seen when it is parsed. -/
def C5doc : HtmlDoc :=
  ⟨200, some [["h"], ["X　Y", "a", "b", "c", "d", "e", "f"]]⟩

/-- Non-futures document whose category header text BOGUS is not a member
of the Category enumeration. -/
def C6doc : HtmlDoc :=
  ⟨200, some [["h"], ["BOGUS"], ["X　Y", "a", "b", "c", "d", "e", "f"]]⟩

/-- Non-futures document whose data row's first cell has no full-width
space separator. -/
def C10doc : HtmlDoc := ⟨200, some [["h"], ["股票"], ["2330", "x", "y"]]⟩

/-- Environment with a populated ETF cache file and an unreachable store:
a query served from the cache never notices the store. -/
def C2envCache : GetEnv where
  cacheFile := fun c =>
    if c = Category.etf then
      some [[some "0050", some "元大台灣50", some "ETF", some "i", some "d",
             some "m", some "si", some "cc", some "no"]]
    else none
  store := .unreachable
  csvRows := []
  downloadRows := []

/-- Environment where cache, store and CSV all yield zero rows while a
re-fetch would yield one row. -/
def C2envEmpty : GetEnv where
  cacheFile := fun _ => none
  store := .table (fun _ => [])
  csvRows := []
  downloadRows := [[some "0050", some "元大台灣50", some "ETF", some "i", some "d",
                    some "m", some "si", some "cc", some "no"]]

/-- Environment with no cache files, an unreachable store, and a CSV
fallback that does hold a STOCK row. -/
def C7env : GetEnv where
  cacheFile := fun _ => none
  store := .unreachable
  csvRows := [[some "2330", some "台積電", some "股票", some "i", some "d",
               some "m", some "si", some "cc", some "no"]]
  downloadRows := []

/-! ### Helper lemmas -/

theorem pyGet_nil (i : Nat) : pyGet ([] : List α) i = .error .indexError := by
  simp [pyGet]

theorem pyGet_cons_zero (a : α) (l : List α) : pyGet (a :: l) 0 = .ok a := by
  simp [pyGet]

theorem pyGet_cons_succ (a : α) (l : List α) (i : Nat) :
    pyGet (a :: l) (i + 1) = pyGet l i := by
  by_cases h : i < l.length
  · simp [pyGet, h, Nat.succ_lt_succ h]
  · simp [pyGet, h, fun hc => h (Nat.lt_of_succ_lt_succ hc)]

theorem pyInsert_zero (l : List α) (x : α) : pyInsert l 0 x = x :: l := by
  simp [pyInsert]

theorem pyInsert_cons_succ (a : α) (l : List α) (i : Nat) (x : α) :
    pyInsert (a :: l) (i + 1) x = a :: pyInsert l i x := by
  simp [pyInsert]

theorem pyInsert_nil (i : Nat) (x : α) : pyInsert ([] : List α) i x = [x] := by
  simp [pyInsert]

theorem strMk_toList (s : String) : String.mk s.toList = s := rfl

theorem splitCharList_of_not_mem (sep : Char) (cs : List Char) (h : sep ∉ cs) :
    splitCharList sep cs = [cs] := by
  induction cs with
  | nil => rfl
  | cons c rest ih =>
    have hc : ¬ c = sep := fun he => h (he ▸ List.mem_cons_self c rest)
    have hr : sep ∉ rest := fun hm => h (List.mem_cons_of_mem c hm)
    simp [splitCharList, ih hr, hc]

theorem splitFW_of_not_hasFW (s : String) (h : hasFW s = false) : splitFW s = [s] := by
  have hm : '　' ∉ s.toList := by
    intro hmem
    simp [hasFW, List.contains] at h
    exact h hmem
  simp only [splitFW]
  rw [splitCharList_of_not_mem '　' s.toList hm]
  rfl

theorem crawlDataRow_eq (cat : Cell) (t0 : String) (rest : List String)
    (s0 s1 : String) (tl : List String) (h : splitFW t0 = s0 :: s1 :: tl) :
    crawlDataRow cat (t0 :: rest) =
      .ok (some (removeSpaces s0) :: some s1 :: cat :: rest.map some) := by
  simp [crawlDataRow, h, pyGet_cons_zero, pyGet_cons_succ, pyInsert,
    Bind.bind, Except.bind, Functor.map, Except.map, pure, Except.pure]

theorem crawlDataRow_noSep (cat : Cell) (t0 : String) (rest : List String)
    (s0 : String) (h : splitFW t0 = [s0]) :
    crawlDataRow cat (t0 :: rest) = .error .indexError := by
  simp [crawlDataRow, h, pyGet, Bind.bind, Except.bind, Functor.map, Except.map]

theorem crawlFutureRow_eq (t0 t1 t2 : String) (rest : List String)
    (s0 s1 : String) (tl : List String) (h : splitFW t0 = s0 :: s1 :: tl) :
    crawlFutureRow (t0 :: t1 :: t2 :: rest) =
      .ok (some s0 :: some s1 :: some "指數" :: some t1 :: some t2 ::
           some "" :: some "" :: rest.map some) := by
  simp [crawlFutureRow, h, pyGet, pyInsert,
    Bind.bind, Except.bind, Functor.map, Except.map, pure, Except.pure]

theorem crawlFutureRow_noSep (t0 : String) (rest : List String)
    (s0 : String) (h : splitFW t0 = [s0]) :
    crawlFutureRow (t0 :: rest) = .error .indexError := by
  simp [crawlFutureRow, h, pyGet, pyInsert,
    Bind.bind, Except.bind, Functor.map, Except.map]


theorem crawlRowsNF_nil (cat : Cell) : crawlRowsNF cat [] = .ok [] := rfl

theorem crawlRowsNF_emptyRow (cat : Cell) (more : List (List String)) :
    crawlRowsNF cat ([] :: more) = .error .indexError := by
  simp [crawlRowsNF, pyGet, Bind.bind, Except.bind]

theorem crawlRowsNF_header (cat : Cell) (t0 : String) (more : List (List String)) :
    crawlRowsNF cat ([t0] :: more) = crawlRowsNF (some (pyStrip t0)) more := by
  simp [crawlRowsNF, pyGet, Bind.bind, Except.bind]

theorem crawlRowsNF_data (cat : Cell) (tds : List String) (more : List (List String))
    (h : 1 < tds.length) :
    crawlRowsNF cat (tds :: more) =
      (crawlDataRow cat tds).bind
        (fun row => (crawlRowsNF cat more).bind (fun rows => .ok (row :: rows))) := by
  have hn : ¬ tds.length ≤ 1 := Nat.not_le_of_lt h
  cases tds with
  | nil => simp at h
  | cons a as =>
    simp only [crawlRowsNF, if_neg hn]
    rfl

theorem crawlRowsF_cons (tds : List String) (more : List (List String)) :
    crawlRowsF (tds :: more) =
      (crawlFutureRow tds).bind
        (fun row => (crawlRowsF more).bind (fun rows => .ok (row :: rows))) := rfl

theorem crawlRowsNF_badRow_mem (t0 : String) (ts : List String)
    (rows : List (List String)) (hmem : (t0 :: ts) ∈ rows) (hts : ts ≠ [])
    (hsplit : splitFW t0 = [t0]) :
    ∀ (cat : Cell) (out : List Row), crawlRowsNF cat rows ≠ .ok out := by
  induction rows with
  | nil => cases hmem
  | cons r rest ih =>
    intro cat out hok
    rcases List.mem_cons.mp hmem with heq | hm
    · subst heq
      have hlen : 1 < (t0 :: ts).length := by
        cases ts with
        | nil => exact absurd rfl hts
        | cons b bs => simp
      rw [crawlRowsNF_data cat _ rest hlen,
          crawlDataRow_noSep cat t0 ts t0 hsplit] at hok
      exact Except.noConfusion hok
    · cases r with
      | nil =>
        rw [crawlRowsNF_emptyRow] at hok
        exact Except.noConfusion hok
      | cons a as =>
        cases as with
        | nil =>
          rw [crawlRowsNF_header] at hok
          exact ih hm _ _ hok
        | cons b bs =>
          have hlen : 1 < (a :: b :: bs).length := by simp
          rw [crawlRowsNF_data cat _ rest hlen] at hok
          cases hrow : crawlDataRow cat (a :: b :: bs) with
          | error e => rw [hrow] at hok; exact Except.noConfusion hok
          | ok row =>
            rw [hrow] at hok
            cases hrest : crawlRowsNF cat rest with
            | error e =>
              rw [hrest] at hok
              exact Except.noConfusion hok
            | ok rows2 => exact ih hm _ _ hrest

theorem crawlRowsF_badRow_mem (t0 : String) (ts : List String)
    (rows : List (List String)) (hmem : (t0 :: ts) ∈ rows)
    (hsplit : splitFW t0 = [t0]) :
    ∀ (out : List Row), crawlRowsF rows ≠ .ok out := by
  induction rows with
  | nil => cases hmem
  | cons r rest ih =>
    intro out hok
    rcases List.mem_cons.mp hmem with heq | hm
    · subst heq
      rw [crawlRowsF_cons, crawlFutureRow_noSep t0 ts t0 hsplit] at hok
      exact Except.noConfusion hok
    · rw [crawlRowsF_cons] at hok
      cases hrow : crawlFutureRow r with
      | error e => rw [hrow] at hok; exact Except.noConfusion hok
      | ok row =>
        rw [hrow] at hok
        cases hrest : crawlRowsF rest with
        | error e => rw [hrest] at hok; exact Except.noConfusion hok
        | ok rows2 => exact ih hm _ hrest


/-! ### Further helper lemmas for `download_codes` -/

theorem symKey_astypeRow (r : Row) : symKey (astypeRow r) = symKey r := by
  cases r with
  | nil => rfl
  | cons c t => simp [astypeRow, astypeFrom, symKey, cellAt, pyStrOfCell]

theorem download_codes_ok (d1 d2 d3 : HtmlDoc) (w : Option Nat) (r1 r2 r3 : List Row)
    (h1 : crawl_from_url false d1 = .ok r1) (h2 : crawl_from_url false d2 = .ok r2)
    (h3 : crawl_from_url true d3 = .ok r3) (hw : ¬(w = none ∨ w = some 0)) :
    download_codes d1 d2 d3 w = .ok (((r1 ++ r2 ++ r3).map astypeRow).map setIndexRow) := by
  unfold download_codes
  rw [h1]
  simp only [Bind.bind, Except.bind]
  rw [h2]
  simp only
  rw [h3]
  simp only
  rw [if_neg hw]
  rfl

theorem download_codes_fail (d1 d2 d3 : HtmlDoc) (w : Option Nat) (r1 r2 r3 : List Row)
    (h1 : crawl_from_url false d1 = .ok r1) (h2 : crawl_from_url false d2 = .ok r2)
    (h3 : crawl_from_url true d3 = .ok r3) (hw : w = none ∨ w = some 0) :
    download_codes d1 d2 d3 w
      = .error (.connectionRefused "Could not insert data into database") := by
  unfold download_codes
  rw [h1]
  simp only [Bind.bind, Except.bind]
  rw [h2]
  simp only
  rw [h3]
  simp only
  rw [if_pos hw]

/-! ### Claim theorems -/

/-- C1 (corrected): `download_codes` concatenates the three sources'
records in fetch order and `set_index` performs no deduplication: in the
returned record set, the number of entries keyed by any symbol equals the
number of source rows carrying that symbol, so a symbol appearing in two
sources yields two entries — there is no last-write-wins merge. -/
theorem C1_concat_no_dedup (d1 d2 d3 : HtmlDoc) (w : Option Nat) (r1 r2 r3 : List Row)
    (h1 : crawl_from_url false d1 = .ok r1) (h2 : crawl_from_url false d2 = .ok r2)
    (h3 : crawl_from_url true d3 = .ok r3) (hw : ¬(w = none ∨ w = some 0)) :
    ∃ out, download_codes d1 d2 d3 w = .ok out ∧
      ∀ s : String, out.countP (fun e => e.1 == s)
        = (r1 ++ r2 ++ r3).countP (fun r => symKey r == s) := by
  refine ⟨_, download_codes_ok d1 d2 d3 w r1 r2 r3 h1 h2 h3 hw, ?_⟩
  intro s
  rw [List.countP_map, List.countP_map]
  have hfun : (((fun e : String × Row => e.1 == s) ∘ setIndexRow) ∘ astypeRow)
      = (fun r : Row => symKey r == s) := by
    funext r
    show (symKey (astypeRow r) == s) = (symKey r == s)
    rw [symKey_astypeRow]
  rw [hfun]

/-- C1 witness: the concat-with-duplicates description instantiated on the
concrete C1 documents, whose data rows both carry symbol AAAA. -/
theorem C1_witness :
    ∃ out, download_codes C1twsDoc C1otcDoc C1futDoc (some 2) = .ok out ∧
      ∀ s : String, out.countP (fun e => e.1 == s)
        = ([[some "AAAA", some "甲", some "股票", some "i1", some "d1", some "m1",
             some "in1", some "c1", some "no1"]]
           ++ ([] : List Row)
           ++ [[some "AAAA", some "乙", some "指數", some "i2", some "d2", some "",
                some "", some "c2", some "no2"]]).countP (fun r => symKey r == s) :=
  C1_concat_no_dedup C1twsDoc C1otcDoc C1futDoc (some 2)
    [[some "AAAA", some "甲", some "股票", some "i1", some "d1", some "m1",
      some "in1", some "c1", some "no1"]]
    []
    [[some "AAAA", some "乙", some "指數", some "i2", some "d2", some "",
      some "", some "c2", some "no2"]]
    (by decide) (by decide) (by decide) (by decide)

/-- C1 counterexample: with symbol AAAA present in both the TWS and futures
documents, `download_codes` returns two entries keyed AAAA — more than one
Record per symbol, refuting the claimed at-most-one/last-write-wins merge. -/
theorem C1_counterexample :
    download_codes C1twsDoc C1otcDoc C1futDoc (some 2) = .ok C1out ∧
    ¬ (C1out.countP (fun e => e.1 == "AAAA") ≤ 1) := by
  exact ⟨by decide, by decide⟩

/-- C2 (corrected): the tiers `get` consults are disk cache, persisted
store, CSV fallback — the source has no forced re-fetch tier.  If the
per-category cache file exists the store is never contacted, and when its
contents are non-empty they are returned as-is; when cache, store and CSV
all yield zero rows, `get` raises the definitive
LookupError("No codes found in CSV file."). -/
theorem C2_tiering (env : GetEnv) (cat : Category) :
    ((env.cacheFile cat).isSome → (get env cat true false true).storeContacted = false) ∧
    (∀ rows, env.cacheFile cat = some rows → rows ≠ [] →
      (get env cat true false true).result = .ok (.frame rows)) ∧
    (env.cacheFile cat = none → env.store ≠ .unreachable →
      (∀ f, env.store = .table f → f cat = []) →
      csvFilterRows cat.value env.csvRows = [] →
      (get env cat true false true).result
        = .error (.lookupError "No codes found in CSV file.")) := by
  refine ⟨?_, ?_, ?_⟩
  · intro hs
    cases hc : env.cacheFile cat with
    | none => rw [hc] at hs; simp at hs
    | some rows => simp [get, hc, getAfterSql, apply_ite GetResult.storeContacted]
  · intro rows hc hne
    cases rows with
    | nil => exact absurd rfl hne
    | cons a as => simp [get, hc, getAfterSql]
  · intro hc hu hf hcsv
    cases hst : env.store with
    | unreachable => exact absurd hst hu
    | noTable => simp [get, hc, hst, getAfterSql, hcsv]
    | table f =>
      have hfcat := hf f hst
      simp [get, hc, hst, getAfterSql, hfcat, hcsv]

/-- C2 witness: a populated ETF cache is served without store contact, and
an all-empty environment produces the LookupError. -/
theorem C2_witness :
    (get C2envCache .etf true false true).storeContacted = false ∧
    (get C2envCache .etf true false true).result
      = .ok (.frame [[some "0050", some "元大台灣50", some "ETF", some "i", some "d",
                      some "m", some "si", some "cc", some "no"]]) ∧
    (get C2envEmpty .etf true false true).result
      = .error (.lookupError "No codes found in CSV file.") := by
  refine ⟨(C2_tiering C2envCache .etf).1 rfl,
          (C2_tiering C2envCache .etf).2.1 _ rfl (by decide),
          (C2_tiering C2envEmpty .etf).2.2 rfl (by simp [C2envEmpty]) ?_ rfl⟩
  intro f hf
  have h2 : StoreState.table (fun _ => ([] : List Row)) = .table f := hf
  injection h2 with h3
  exact (congrFun h3 Category.etf).symm

/-- C2 counterexample: with cache, store and CSV all yielding zero rows and
a re-fetch that would yield one row, `get` raises LookupError rather than
consulting any re-fetch tier — the claimed fourth tier does not exist. -/
theorem C2_counterexample :
    C2envEmpty.downloadRows ≠ [] ∧
    (get C2envEmpty .etf true false true).result
      = .error (.lookupError "No codes found in CSV file.") := by
  exact ⟨by decide, rfl⟩

/-- C3 (corrected): a non-futures data row parses to
[symbol, name, category, remaining cells in source order] — name in
position 1 and category in position 2, matching the schema column order —
where (symbol, name) come from splitting the first cell on the full-width
space and the symbol has its ASCII spaces removed. -/
theorem C3_data_row_fields (cat : Cell) (t0 : String) (rest : List String)
    (s0 s1 : String) (tl : List String) (h : splitFW t0 = s0 :: s1 :: tl) :
    crawlDataRow cat (t0 :: rest) =
      .ok (some (removeSpaces s0) :: some s1 :: cat :: rest.map some) :=
  crawlDataRow_eq cat t0 rest s0 s1 tl h

/-- C3 witness: "2330　台積電" splits to symbol 2330 and name 台積電, and a
symbol "91 01" normalizes to 9101; both rows are emitted as
[symbol, name, category, rest]. -/
theorem C3_witness :
    crawlDataRow (some "股票") ["2330　台積電", "x"]
      = .ok [some "2330", some "台積電", some "股票", some "x"] ∧
    crawlDataRow (some "股票") ["91 01　甲公司", "x"]
      = .ok [some "9101", some "甲公司", some "股票", some "x"] := by
  constructor
  · rw [C3_data_row_fields (some "股票") "2330　台積電" ["x"] "2330" "台積電" [] (by decide)]
    decide
  · rw [C3_data_row_fields (some "股票") "91 01　甲公司" ["x"] "91 01" "甲公司" [] (by decide)]
    decide

/-- C3 counterexample: the emitted tuple puts the name in position 1 and
the category in position 2, not the claimed [symbol, category, name, rest]
order. -/
theorem C3_counterexample :
    crawlDataRow (some "股票") ["5880　合庫金", "ic0"]
      = .ok [some "5880", some "合庫金", some "股票", some "ic0"] ∧
    [some "5880", some "合庫金", some "股票", some "ic0"] ≠
      ([some "5880", some "股票", some "合庫金", some "ic0"] : Row) := by
  exact ⟨by decide, by decide⟩

/-- C4: `download_codes` calls `df.sort_values(symbol_col)` without keeping
the result, so the returned record set stays in concatenation order: on
documents yielding symbols BBBB then AAAA the output is ["BBBB", "AAAA"],
not ascending by symbol. -/
theorem C4_unsorted_output :
    download_codes C4twsDoc C4otcDoc C4futDoc (some 2) = .ok C4out ∧
    C4out.map Prod.fst = ["BBBB", "AAAA"] ∧
    ¬ sortedBySymbol C4out := by
  refine ⟨by decide, by decide, ?_⟩
  unfold sortedBySymbol
  decide

/-- C5 (corrected): a data row before any header row is not a parse error:
it is parsed normally and emitted with its category cell equal to `none`
(Python None), and parsing continues. -/
theorem C5_headerless_data_row (t0 c : String) (cs : List String)
    (s0 s1 : String) (tl : List String) (h : splitFW t0 = s0 :: s1 :: tl)
    (more : List (List String)) :
    crawlRowsNF none ((t0 :: c :: cs) :: more) =
      (crawlRowsNF none more).bind
        (fun rows =>
          .ok ((some (removeSpaces s0) :: some s1 :: none :: (c :: cs).map some) :: rows)) := by
  rw [crawlRowsNF_data none _ more (by simp), crawlDataRow_eq none t0 (c :: cs) s0 s1 tl h]
  rfl

/-- C5 witness: a single data row with no preceding header parses to one
record whose category cell is none. -/
theorem C5_witness :
    crawlRowsNF none [["X　Y", "a"]] = .ok [[some "X", some "Y", none, some "a"]] := by
  rw [C5_headerless_data_row "X　Y" "a" [] "X" "Y" [] (by decide) []]
  decide

/-- C5 counterexample: a whole non-futures document whose first row after
the skipped heading is a data row parses successfully — no
category-sequencing error is raised — and the emitted record's category
cell is none (an unset category). -/
theorem C5_counterexample :
    crawl_from_url false C5doc
      = .ok [[some "X", some "Y", none, some "a", some "b", some "c",
              some "d", some "e", some "f"]] ∧
    cellAt [some "X", some "Y", none, some "a", some "b", some "c",
            some "d", some "e", some "f"] 2 = none := by
  exact ⟨by decide, by decide⟩

/-- C6 (corrected): a header row's trimmed text becomes the current
category verbatim — there is no membership check against the Category
enumeration and no error path for unrecognized header text. -/
theorem C6_header_unvalidated (cat : Cell) (t0 : String) (more : List (List String)) :
    crawlRowsNF cat ([t0] :: more) = crawlRowsNF (some (pyStrip t0)) more :=
  crawlRowsNF_header cat t0 more

/-- C6 counterexample: a document with header text BOGUS — not a member of
the Category enumeration — parses without error and its data row carries
category BOGUS. -/
theorem C6_counterexample :
    crawl_from_url false C6doc
      = .ok [[some "X", some "Y", some "BOGUS", some "a", some "b", some "c",
              some "d", some "e", some "f"]] ∧
    categoryValues.contains "BOGUS" = false := by
  exact ⟨by decide, by decide⟩

/-- C7: with no cache file and the persisted store unreachable, `get` does
not fall through to the CSV tier even though that tier holds a matching
STOCK row: the clause `except sqlalchemy.ExceptionContext` names a class
that is not a BaseException subclass, so the connection failure escapes as
a TypeError to the caller. -/
theorem C7_connection_failure_propagates :
    C7env.csvRows ≠ [] ∧
    csvFilterRows (Category.stock).value C7env.csvRows ≠ [] ∧
    get C7env .stock true false true =
      { result := .error (.typeError
          "catching classes that do not inherit from BaseException is not allowed")
        storeContacted := true
        cacheWritten := none } := by
  exact ⟨by decide, by decide, rfl⟩

/-- C8 (corrected): in a futures data row with at least three source cells,
the two empty placeholder cells land in the market-type (position 5, "ma")
and industry (position 6, "si") columns; the date-of-listing column
(position 4, "dl") receives the row's third source cell; the category
(position 2) is INDEX (指數). -/
theorem C8_future_row_fields (t0 t1 t2 : String) (rest : List String)
    (s0 s1 : String) (tl : List String) (h : splitFW t0 = s0 :: s1 :: tl) :
    crawlFutureRow (t0 :: t1 :: t2 :: rest)
      = .ok (some s0 :: some s1 :: some "指數" :: some t1 :: some t2 ::
             some "" :: some "" :: rest.map some) ∧
    cellAt (some s0 :: some s1 :: some "指數" :: some t1 :: some t2 ::
            some "" :: some "" :: rest.map some) 2 = some "指數" ∧
    cellAt (some s0 :: some s1 :: some "指數" :: some t1 :: some t2 ::
            some "" :: some "" :: rest.map some) 5 = some "" ∧
    cellAt (some s0 :: some s1 :: some "指數" :: some t1 :: some t2 ::
            some "" :: some "" :: rest.map some) 6 = some "" :=
  ⟨crawlFutureRow_eq t0 t1 t2 rest s0 s1 tl h, rfl, rfl, rfl⟩

/-- C8 witness: a five-cell futures row parses with 指數 in position 2 and
the empty placeholders in positions 5 and 6. -/
theorem C8_witness :
    crawlFutureRow ["X　Y", "TWisin", "20200101", "CFI", "note"]
      = .ok [some "X", some "Y", some "指數", some "TWisin", some "20200101",
             some "", some "", some "CFI", some "note"] := by
  have h := (C8_future_row_fields "X　Y" "TWisin" "20200101" ["CFI", "note"]
    "X" "Y" [] (by decide)).1
  simpa using h

/-- C8 counterexample: in the parsed futures row the date-of-listing column
(position 4) holds the source's 20200101 cell, not the claimed empty
placeholder. -/
theorem C8_counterexample :
    crawlFutureRow ["X　Y", "TWisin", "20200101", "CFI", "note"]
      = .ok [some "X", some "Y", some "指數", some "TWisin", some "20200101",
             some "", some "", some "CFI", some "note"] ∧
    cellAt [some "X", some "Y", some "指數", some "TWisin", some "20200101",
            some "", some "", some "CFI", some "note"] 4 ≠ some "" := by
  exact ⟨by decide, by decide⟩

/-- C9 (corrected): `download_codes` returns the fetched record set only
when the persisted write reports a non-zero row count; a zero (or None)
report raises ConnectionRefusedError and the fetched data is withheld from
the caller. -/
theorem C9_persistence_gate (d1 d2 d3 : HtmlDoc) (r1 r2 r3 : List Row)
    (h1 : crawl_from_url false d1 = .ok r1) (h2 : crawl_from_url false d2 = .ok r2)
    (h3 : crawl_from_url true d3 = .ok r3) :
    (∀ w : Option Nat, (w = none ∨ w = some 0) →
      download_codes d1 d2 d3 w
        = .error (.connectionRefused "Could not insert data into database")) ∧
    (∀ n : Nat, download_codes d1 d2 d3 (some (n + 1))
      = .ok (((r1 ++ r2 ++ r3).map astypeRow).map setIndexRow)) := by
  constructor
  · intro w hw
    exact download_codes_fail d1 d2 d3 w r1 r2 r3 h1 h2 h3 hw
  · intro n
    exact download_codes_ok d1 d2 d3 (some (n + 1)) r1 r2 r3 h1 h2 h3 (by simp)

/-- C9 witness: a successful non-empty fetch whose persisted write reports
zero rows ends in ConnectionRefusedError. -/
theorem C9_witness :
    download_codes C9twsDoc C9otcDoc C9futDoc (some 0)
      = .error (.connectionRefused "Could not insert data into database") :=
  (C9_persistence_gate C9twsDoc C9otcDoc C9futDoc
    [[some "2330", some "台積電", some "股票", some "i1", some "d1",
      some "m1", some "in1", some "c1", some "no1"]]
    [] []
    (by decide) (by decide) (by decide)).1 (some 0) (Or.inr rfl)

/-- C9 counterexample: the fetch succeeds with a non-empty record set, yet
a zero-affected-rows persisted write makes `download_codes` raise — the
in-memory record set is not returned to the caller. -/
theorem C9_counterexample :
    crawl_from_url false C9twsDoc
      = .ok [[some "2330", some "台積電", some "股票", some "i1", some "d1",
              some "m1", some "in1", some "c1", some "no1"]] ∧
    download_codes C9twsDoc C9otcDoc C9futDoc (some 0)
      = .error (.connectionRefused "Could not insert data into database") := by
  exact ⟨by decide, by decide⟩

/-- C10: if a data row's first cell lacks the full-width space separator,
splitting yields a single-element list, the subsequent read of its second
element is out of bounds, and parsing the whole document fails — it never
returns a row list, so no record with an empty name is emitted. -/
theorem C10_missing_separator_fails (isFut : Bool) (doc : HtmlDoc)
    (trs : List (List String)) (t0 : String) (ts : List String)
    (htable : doc.tableRows = some trs)
    (hmem : (t0 :: ts) ∈ trs.drop 1)
    (hdata : 1 < (t0 :: ts).length ∨ isFut = true)
    (hsep : hasFW t0 = false) :
    splitFW t0 = [t0] ∧ ∀ out : List Row, crawl_from_url isFut doc ≠ .ok out := by
  have hsplit := splitFW_of_not_hasFW t0 hsep
  refine ⟨hsplit, ?_⟩
  intro out hok
  unfold crawl_from_url at hok
  by_cases hst : doc.statusCode ≠ 200
  · rw [if_pos hst] at hok
    exact Except.noConfusion hok
  · rw [if_neg hst, htable] at hok
    cases isFut with
    | true => exact crawlRowsF_badRow_mem t0 ts (trs.drop 1) hmem hsplit out hok
    | false =>
      have hts : ts ≠ [] := by
        rcases hdata with h1 | h2
        · intro he
          rw [he] at h1
          simp at h1
        · exact Bool.noConfusion h2
      exact crawlRowsNF_badRow_mem t0 ts (trs.drop 1) hmem hts hsplit none out hok

/-- C10 witness: a document whose data row's first cell "2330" has no
full-width space fails to parse. -/
theorem C10_witness :
    splitFW "2330" = ["2330"] ∧
    ∀ out : List Row, crawl_from_url false C10doc ≠ .ok out :=
  C10_missing_separator_fails false C10doc [["h"], ["股票"], ["2330", "x", "y"]]
    "2330" ["x", "y"] rfl (by decide) (Or.inl (by decide)) (by decide)

end TwseCodes
